import Mathlib

/-!
Verification of `OptimizedController` (src/OptimizedController.tsx).

The component wraps react-hook-form's `useController` hook and memoizes the
result of the caller-supplied `render` function with React's `useMemo`,
keyed on the dependency array `[value, disabled, render]`:

  function OptimizedController(props) {
    const { render } = props;
    const { field } = useController(props);
    const { value, disabled } = field;
    return useMemo(() => render(field), [value, disabled, render]);
  }

The embedding below models JavaScript values with explicit object identity
(`Object.is` compares objects by reference, primitives by value), React's
`useMemo` as an explicit memo cell threaded through successive renders, and
one component render pass as a function from the hook result and the previous
memo cell to the produced node, the new memo cell, and the list of calls made
to the `render` prop during that pass.
-/

namespace OptCtrl

/-- JavaScript primitive values. `Object.is` on these coincides with
structural equality (numbers are modelled as integers, so the NaN and
signed-zero corner cases of floating point do not arise). -/
inductive JSPrim where
  | undef : JSPrim
  | null : JSPrim
  | bool (b : Bool) : JSPrim
  | num (n : Int) : JSPrim
  | str (s : String) : JSPrim
deriving DecidableEq, Repr

/-- A JavaScript value: either a primitive, or an object carrying a heap
reference `ref` together with a snapshot of its current contents. Two
snapshots of the same object mutated in place share `ref` but may differ in
`payload`. -/
inductive JSValue where
  | prim (p : JSPrim) : JSValue
  | obj (ref : Nat) (payload : List (String × JSPrim)) : JSValue
deriving DecidableEq, Repr

/-- `Object.is`, the comparison React applies to each entry of a `useMemo`
dependency array: primitives by value, objects by reference (the payload is
ignored, so an object mutated in place compares equal to itself). -/
def objectIs : JSValue → JSValue → Bool
  | .prim p, .prim q => p == q
  | .obj r _, .obj s _ => r == s
  | .prim _, .obj _ _ => false
  | .obj _ _, .prim _ => false

/-- An observable call into the external form-state provider. -/
inductive ProviderEvent where
  | setValue (name : String) (v : JSValue) : ProviderEvent
  | blurred (name : String) : ProviderEvent
deriving DecidableEq, Repr

/-- The `field` object returned by `useController`: name, current value,
disabled flag (`undefined` is `none`), the provider's own change and blur
handlers (modelled by the provider calls they emit when invoked), and the
ref binding (modelled by its reference identity). -/
structure Field where
  name : String
  value : JSValue
  disabled : Option Bool
  onChange : JSValue → List ProviderEvent
  onBlur : Unit → List ProviderEvent
  ref : Nat

/-- The `fieldState` object of `useController`: the per-field flags the
component deliberately never reads. -/
structure FieldStateInfo where
  isTouched : Bool
  isDirty : Bool
  invalid : Bool
  error : Option String
deriving DecidableEq, Repr

/-- The full return of `useController`: the component destructures only
`field`; `fieldState` and `formState` (an opaque token here) are present but
unused. -/
structure UseControllerReturn where
  field : Field
  fieldState : FieldStateInfo
  formState : Nat

/-- A renderable node, identified by reference. -/
abbrev ReactElement := Nat

/-- The caller-supplied `render` prop: a function object, so it has a
reference identity `id` (what `Object.is` sees in the dependency array) and
a behaviour `fn`. -/
structure RenderFn where
  id : Nat
  fn : Field → ReactElement

/-- The `useMemo` dependency tuple of the source: `[value, disabled, render]`. -/
structure Deps where
  value : JSValue
  disabled : Option Bool
  renderId : Nat
deriving Repr

/-- Element-wise `Object.is` over the dependency array, as React compares it:
`value` may be an object (reference comparison), `disabled` is a primitive
(boolean or undefined, value comparison), `render` is a function (reference
comparison). -/
def depsEq (a b : Deps) : Bool :=
  objectIs a.value b.value && a.disabled == b.disabled && a.renderId == b.renderId

/-- The dependency tuple extracted on a render pass. -/
def mkDeps (render : RenderFn) (f : Field) : Deps :=
  ⟨f.value, f.disabled, render.id⟩

/-- React's per-instance `useMemo` slot: the dependency array and the cached
result of the last computation. -/
structure MemoCell where
  deps : Deps
  result : ReactElement

/-- React's `useMemo`: if a previous cell exists and every dependency is
`Object.is`-equal to the stored one, return the cached result without
calling `compute`; otherwise call `compute` once and cache the result. The
returned `Bool` records whether `compute` ran. -/
def useMemo (compute : Unit → ReactElement) (deps : Deps) :
    Option MemoCell → ReactElement × MemoCell × Bool
  | some c =>
    if depsEq c.deps deps then (c.result, c, false)
    else
      let r := compute ()
      (r, ⟨deps, r⟩, true)
  | none =>
    let r := compute ()
    (r, ⟨deps, r⟩, true)

/-- The outcome of one render pass of the component: the node it returns,
the memo cell it leaves behind, and the arguments of the calls it made to
the `render` prop during the pass (`[]` or `[field]`). -/
structure StepResult where
  node : ReactElement
  cell : MemoCell
  calls : List Field

/-- One render pass of `OptimizedController`, as the source writes it:
destructure `render` from the props, take `field` from `useController`,
extract `value` and `disabled`, and return
`useMemo(() => render(field), [value, disabled, render])`. -/
def OptimizedController (render : RenderFn) (hook : UseControllerReturn)
    (prev : Option MemoCell) : StepResult :=
  let field := hook.field
  let value := field.value
  let disabled := field.disabled
  let m := useMemo (fun _ => render.fn field) ⟨value, disabled, render.id⟩ prev
  ⟨m.1, m.2.1, if m.2.2 then [field] else []⟩

/-- A sequence of component render passes driven by successive provider
notifications: each pass receives the hook result of that notification and
the memo cell left by the previous pass. -/
def runController (render : RenderFn) :
    Option MemoCell → List UseControllerReturn → List StepResult
  | _, [] => []
  | prev, hook :: rest =>
    let s := OptimizedController render hook prev
    s :: runController render (some s.cell) rest

/-- Total number of `render`-prop invocations across a run. -/
def countCalls (rs : List StepResult) : Nat :=
  (rs.map fun s => s.calls.length).sum

/-- Neither `value` nor `disabled` differs between two hook results
(`value` compared as `Object.is` does, `disabled` as primitive equality). -/
def pairUnchanged (a b : UseControllerReturn) : Prop :=
  objectIs a.field.value b.field.value = true ∧ a.field.disabled = b.field.disabled

/-- Every two consecutive hook results of the sequence leave `value` and
`disabled` unchanged. -/
def consecUnchanged : List UseControllerReturn → Prop
  | [] => True
  | [_] => True
  | a :: b :: rest => pairUnchanged a b ∧ consecUnchanged (b :: rest)

/-- The memo cell was produced for this `render` prop and its stored
dependencies match the head of the remaining update sequence. -/
def cellMatches (render : RenderFn) (c : MemoCell) : List UseControllerReturn → Prop
  | [] => True
  | hook :: _ =>
    c.deps.renderId = render.id ∧
      objectIs c.deps.value hook.field.value = true ∧
      c.deps.disabled = hook.field.disabled

/-- Modelled from the spec: react-hook-form itself is not part of this
repository. Its `field.onChange` "propagates the new value to the provider"
and `field.onBlur` notifies the provider of a touch, each exactly once per
call; this builds the `field` object such a provider hands to the component. -/
def providerField (n : String) (v : JSValue) (d : Option Bool) (r : Nat) : Field :=
  ⟨n, v, d, fun nv => [ProviderEvent.setValue n nv], fun _ => [ProviderEvent.blurred n], r⟩

/-- Modelled from the spec: the failure conditions the external provider owns
(missing provider context, invalid field name, provider-internal validation
failure). -/
inductive ProviderFailure where
  | missingContext : ProviderFailure
  | invalidFieldName (name : String) : ProviderFailure
  | validationFailure (msg : String) : ProviderFailure
deriving DecidableEq, Repr

/-- Modelled from the spec: a render pass whose `useController` binding call
may fail. The component body is straight-line code with no handler, so a
provider failure aborts the pass and surfaces unmodified, and a successful
binding proceeds exactly as `OptimizedController`. -/
def OptimizedControllerChecked (render : RenderFn)
    (hook : Except ProviderFailure UseControllerReturn)
    (prev : Option MemoCell) : Except ProviderFailure StepResult :=
  match hook with
  | .error e => .error e
  | .ok hr => .ok (OptimizedController render hr prev)

/-! ### Concrete sample data

A small form scenario used to instantiate the theorems on concrete inputs:
a field named `test` whose value starts as the empty string (as in the
component's own doc example), a touched-flag-only update, a value update,
and an object-valued field mutated in place. -/

/-- A sample render prop (function identity 1). -/
def renderA : RenderFn := ⟨1, fun f => f.ref⟩

/-- A second render prop with a different function identity. -/
def renderB : RenderFn := ⟨2, fun f => f.ref + 1⟩

/-- The `test` field with value `""`. -/
def fieldA : Field := providerField "test" (.prim (.str "")) (some false) 7

/-- The `test` field after its value changed to `"abc"`. -/
def fieldAbc : Field := providerField "test" (.prim (.str "abc")) (some false) 7

/-- A pristine `fieldState`. -/
def fsClean : FieldStateInfo := ⟨false, false, false, none⟩

/-- A `fieldState` whose touched flag is set. -/
def fsTouched : FieldStateInfo := ⟨true, false, false, none⟩

/-- Hook result: initial state. -/
def uA : UseControllerReturn := ⟨fieldA, fsClean, 0⟩

/-- Hook result: only the touched flag changed relative to `uA`. -/
def uTouched : UseControllerReturn := ⟨fieldA, fsTouched, 0⟩

/-- Hook result: the value changed to `"abc"`. -/
def uAbc : UseControllerReturn := ⟨fieldAbc, fsClean, 0⟩

/-- An object-valued field (heap reference 5). -/
def uObj1 : UseControllerReturn :=
  ⟨providerField "box" (.obj 5 [("a", .num 1)]) none 9, fsClean, 0⟩

/-- The same object mutated in place: same reference 5, new contents. -/
def uObj2 : UseControllerReturn :=
  ⟨providerField "box" (.obj 5 [("a", .num 2)]) none 9, fsTouched, 0⟩

/-- A memo cell holding dependencies matching `fieldA` under `renderA`,
with cached node 41. -/
def cellA : MemoCell := ⟨mkDeps renderA fieldA, 41⟩

/-! ### Basic lemmas about the embedding -/

lemma objectIs_refl (v : JSValue) : objectIs v v = true := by
  cases v <;> simp [objectIs]

lemma objectIs_symm {a b : JSValue} (h : objectIs a b = true) :
    objectIs b a = true := by
  cases a <;> cases b <;> simp_all [objectIs]

lemma objectIs_trans {a b c : JSValue} (h1 : objectIs a b = true)
    (h2 : objectIs b c = true) : objectIs a c = true := by
  cases a <;> cases b <;> cases c <;> simp_all [objectIs]

lemma depsEq_true_iff {a b : Deps} :
    depsEq a b = true ↔
      objectIs a.value b.value = true ∧ a.disabled = b.disabled ∧
        a.renderId = b.renderId := by
  simp [depsEq, Bool.and_eq_true, and_assoc]

lemma step_of_none (render : RenderFn) (hook : UseControllerReturn) :
    OptimizedController render hook none =
      ⟨render.fn hook.field, ⟨mkDeps render hook.field, render.fn hook.field⟩,
        [hook.field]⟩ := rfl

lemma step_hit {render : RenderFn} {hook : UseControllerReturn} {c : MemoCell}
    (h : depsEq c.deps (mkDeps render hook.field) = true) :
    OptimizedController render hook (some c) = ⟨c.result, c, []⟩ := by
  simp only [mkDeps] at h
  simp [OptimizedController, useMemo, h]

lemma step_miss {render : RenderFn} {hook : UseControllerReturn} {c : MemoCell}
    (h : depsEq c.deps (mkDeps render hook.field) = false) :
    OptimizedController render hook (some c) =
      ⟨render.fn hook.field, ⟨mkDeps render hook.field, render.fn hook.field⟩,
        [hook.field]⟩ := by
  simp only [mkDeps] at h ⊢
  simp [OptimizedController, useMemo, h]

lemma step_node_eq_result (render : RenderFn) (hook : UseControllerReturn)
    (prev : Option MemoCell) :
    (OptimizedController render hook prev).node =
      (OptimizedController render hook prev).cell.result := by
  cases prev with
  | none => rfl
  | some c =>
    cases hb : depsEq c.deps (mkDeps render hook.field) with
    | true => rw [step_hit hb]
    | false => rw [step_miss hb]

lemma step_cell_deps (render : RenderFn) (hook : UseControllerReturn)
    (prev : Option MemoCell) :
    (OptimizedController render hook prev).cell.deps.renderId = render.id ∧
      objectIs (OptimizedController render hook prev).cell.deps.value
        hook.field.value = true ∧
      (OptimizedController render hook prev).cell.deps.disabled =
        hook.field.disabled := by
  cases prev with
  | none => exact ⟨rfl, objectIs_refl _, rfl⟩
  | some c =>
    cases hb : depsEq c.deps (mkDeps render hook.field) with
    | true =>
      rw [step_hit hb]
      have h := depsEq_true_iff.mp hb
      simp only [mkDeps] at h
      exact ⟨h.2.2, h.1, h.2.1⟩
    | false =>
      rw [step_miss hb]
      exact ⟨rfl, objectIs_refl _, rfl⟩

lemma step_calls_len_le_one (render : RenderFn) (hook : UseControllerReturn)
    (prev : Option MemoCell) :
    (OptimizedController render hook prev).calls.length ≤ 1 := by
  cases prev with
  | none => rw [step_of_none]; simp
  | some c =>
    cases hb : depsEq c.deps (mkDeps render hook.field) with
    | true => rw [step_hit hb]; simp
    | false => rw [step_miss hb]; simp

lemma second_step_hit (render : RenderFn) (prev : Option MemoCell)
    (h1 h2 : UseControllerReturn)
    (hv : objectIs h1.field.value h2.field.value = true)
    (hd : h1.field.disabled = h2.field.disabled) :
    OptimizedController render h2 (some (OptimizedController render h1 prev).cell) =
      ⟨(OptimizedController render h1 prev).cell.result,
        (OptimizedController render h1 prev).cell, []⟩ := by
  obtain ⟨hid, hval, hdis⟩ := step_cell_deps render h1 prev
  apply step_hit
  rw [depsEq_true_iff]
  refine ⟨?_, ?_, ?_⟩
  · simpa only [mkDeps] using objectIs_trans hval hv
  · simp only [mkDeps]; rw [hdis, hd]
  · simpa only [mkDeps] using hid

lemma countCalls_zero (render : RenderFn) :
    ∀ (l : List UseControllerReturn) (c : MemoCell),
      cellMatches render c l → consecUnchanged l →
      countCalls (runController render (some c) l) = 0 := by
  intro l
  induction l with
  | nil => intro c _ _; simp [runController, countCalls]
  | cons hook rest ih =>
    intro c hm hc
    obtain ⟨hid, hval, hdis⟩ := hm
    have hhit : depsEq c.deps (mkDeps render hook.field) = true := by
      rw [depsEq_true_iff]
      refine ⟨?_, ?_, ?_⟩
      · simpa only [mkDeps] using hval
      · simpa only [mkDeps] using hdis
      · simpa only [mkDeps] using hid
    rw [runController, step_hit hhit]
    have hrest : countCalls (runController render (some c) rest) = 0 := by
      cases rest with
      | nil => simp [runController, countCalls]
      | cons h2 rest2 =>
        obtain ⟨⟨hpv, hpd⟩, hc2⟩ := hc
        exact ih c ⟨hid, objectIs_trans hval hpv, hdis.trans hpd⟩ hc2
    simp [countCalls] at hrest ⊢
    exact hrest

lemma calls_le_one_of_consec (render : RenderFn) (prev : Option MemoCell)
    (l : List UseControllerReturn) (hc : consecUnchanged l) :
    countCalls (runController render prev l) ≤ 1 := by
  cases l with
  | nil => simp [runController, countCalls]
  | cons hook rest =>
    rw [runController]
    have hz : countCalls
        (runController render (some (OptimizedController render hook prev).cell) rest) = 0 := by
      apply countCalls_zero
      · obtain ⟨hid, hval, hdis⟩ := step_cell_deps render hook prev
        cases rest with
        | nil => trivial
        | cons h2 rest2 =>
          obtain ⟨⟨hpv, hpd⟩, _⟩ := hc
          exact ⟨hid, objectIs_trans hval hpv, hdis.trans hpd⟩
      · cases rest with
        | nil => trivial
        | cons h2 rest2 => exact hc.2
    have hlen := step_calls_len_le_one render hook prev
    simp [countCalls] at hz ⊢
    omega

lemma mem_calls_eq (render : RenderFn) (hook : UseControllerReturn)
    (prev : Option MemoCell) {g : Field}
    (hg : g ∈ (OptimizedController render hook prev).calls) : g = hook.field := by
  cases prev with
  | none => rw [step_of_none] at hg; simpa using hg
  | some c =>
    cases hb : depsEq c.deps (mkDeps render hook.field) with
    | true => rw [step_hit hb] at hg; simp at hg
    | false => rw [step_miss hb] at hg; simpa using hg

/-! ### The claims -/

/-- Claim C1: on a provider notification (the `render` prop unchanged, as
recorded in the memo cell), the adapter extracts `value` and `disabled` from
the field object and compares the pair against the previously stored pair
with `Object.is` semantics — reference identity for objects, value equality
for primitives. If the pair is unchanged it returns the cached node with no
`render` call and the memo cell untouched; if it changed it calls `render`
once with the new field and caches the new node as the new previous output.
An object-typed value mutated in place (same reference) counts as
unchanged. -/
theorem c1_notification_memoization (render : RenderFn)
    (hook : UseControllerReturn) (c : MemoCell)
    (hid : c.deps.renderId = render.id) :
    ((objectIs c.deps.value hook.field.value = true ∧
        c.deps.disabled = hook.field.disabled) →
      OptimizedController render hook (some c) = ⟨c.result, c, []⟩) ∧
    (¬ (objectIs c.deps.value hook.field.value = true ∧
        c.deps.disabled = hook.field.disabled) →
      OptimizedController render hook (some c) =
        ⟨render.fn hook.field,
          ⟨mkDeps render hook.field, render.fn hook.field⟩, [hook.field]⟩) ∧
    (∀ r p q, objectIs (JSValue.obj r p) (JSValue.obj r q) = true) := by
  refine ⟨?_, ?_, ?_⟩
  · rintro ⟨hv, hd⟩
    refine step_hit (depsEq_true_iff.mpr ⟨?_, ?_, ?_⟩)
    · simpa only [mkDeps] using hv
    · simpa only [mkDeps] using hd
    · simpa only [mkDeps] using hid
  · intro hne
    apply step_miss
    cases hb : depsEq c.deps (mkDeps render hook.field) with
    | false => rfl
    | true =>
      obtain ⟨hv, hd, _⟩ := depsEq_true_iff.mp hb
      simp only [mkDeps] at hv hd
      exact absurd ⟨hv, hd⟩ hne
  · intro r p q
    simp [objectIs]

/-- Concrete instance of C1: with the memo cell recorded for `fieldA`, a
notification carrying the same value and disabled flag returns the cached
node 41 with no render call. -/
theorem c1_witness :
    OptimizedController renderA uA (some cellA) = ⟨cellA.result, cellA, []⟩ :=
  (c1_notification_memoization renderA uA cellA rfl).1 ⟨by decide, rfl⟩

/-- Claim C2: over any run of provider updates in which neither `value` nor
`disabled` changes between consecutive updates, the `render` prop is invoked
at most once in total; and in any run, the pass following a pass with an
`Object.is`-equal pair never invokes `render`. -/
theorem c2_no_redundant_invocation :
    (∀ (render : RenderFn) (prev : Option MemoCell)
        (l : List UseControllerReturn), consecUnchanged l →
        countCalls (runController render prev l) ≤ 1) ∧
    (∀ (render : RenderFn) (prev : Option MemoCell)
        (h1 h2 : UseControllerReturn),
        objectIs h1.field.value h2.field.value = true →
        h1.field.disabled = h2.field.disabled →
        (OptimizedController render h2
          (some (OptimizedController render h1 prev).cell)).calls = []) := by
  constructor
  · exact calls_le_one_of_consec
  · intro render prev h1 h2 hv hd
    rw [second_step_hit render prev h1 h2 hv hd]

/-- Concrete instance of C2: the run `[uA, uTouched]` (second update changes
only the touched flag) invokes render at most once. -/
theorem c2_witness :
    countCalls (runController renderA none [uA, uTouched]) ≤ 1 :=
  c2_no_redundant_invocation.1 renderA none [uA, uTouched]
    ⟨⟨by decide, rfl⟩, trivial⟩

/-- Claim C3: an update whose `value` changed (by `Object.is`), or whose
`disabled` changed, causes exactly one `render` invocation in that pass,
with the new field (hence the new value and the new disabled flag), and the
produced node is the result of that fresh invocation. -/
theorem c3_change_invokes (render : RenderFn) (prev : Option MemoCell)
    (h1 h2 : UseControllerReturn)
    (hch : objectIs h1.field.value h2.field.value = false ∨
      h1.field.disabled ≠ h2.field.disabled) :
    (OptimizedController render h2
        (some (OptimizedController render h1 prev).cell)).calls = [h2.field] ∧
    (OptimizedController render h2
        (some (OptimizedController render h1 prev).cell)).node =
      render.fn h2.field := by
  obtain ⟨hid, hval, hdis⟩ := step_cell_deps render h1 prev
  have hmiss : depsEq (OptimizedController render h1 prev).cell.deps
      (mkDeps render h2.field) = false := by
    cases hb : depsEq (OptimizedController render h1 prev).cell.deps
        (mkDeps render h2.field) with
    | false => rfl
    | true =>
      obtain ⟨hv2, hd2, _⟩ := depsEq_true_iff.mp hb
      simp only [mkDeps] at hv2 hd2
      cases hch with
      | inl h =>
        have ht : objectIs h1.field.value h2.field.value = true :=
          objectIs_trans (objectIs_symm hval) hv2
        rw [h] at ht
        exact absurd ht (by simp)
      | inr h => exact absurd (hdis.symm.trans hd2) h
  rw [step_miss hmiss]
  exact ⟨rfl, rfl⟩

/-- Concrete instance of C3: after `uA` (value `""`), the update `uAbc`
(value `"abc"`) invokes render exactly once with the new field. -/
theorem c3_witness :
    (OptimizedController renderA uAbc
        (some (OptimizedController renderA uA none).cell)).calls =
      [uAbc.field] ∧
    (OptimizedController renderA uAbc
        (some (OptimizedController renderA uA none).cell)).node =
      renderA.fn uAbc.field :=
  c3_change_invokes renderA none uA uAbc (Or.inl (by decide))

/-- Claim C4: an update in which `value` and `disabled` are unchanged —
whatever happened to the other attributes (touched, dirty, validation error)
or to `fieldState`/`formState` — causes no `render` invocation, and the node
handed to consumers is the same as in the previous pass. -/
theorem c4_unrelated_change_no_invoke (render : RenderFn)
    (prev : Option MemoCell) (h1 h2 : UseControllerReturn)
    (hv : objectIs h1.field.value h2.field.value = true)
    (hd : h1.field.disabled = h2.field.disabled) :
    (OptimizedController render h2
        (some (OptimizedController render h1 prev).cell)).calls = [] ∧
    (OptimizedController render h2
        (some (OptimizedController render h1 prev).cell)).node =
      (OptimizedController render h1 prev).node := by
  rw [second_step_hit render prev h1 h2 hv hd,
    step_node_eq_result render h1 prev]
  exact ⟨rfl, rfl⟩

/-- Concrete instance of C4: after `uA`, the touched-only update `uTouched`
invokes render zero times and keeps the node. -/
theorem c4_witness :
    (OptimizedController renderA uTouched
        (some (OptimizedController renderA uA none).cell)).calls = [] ∧
    (OptimizedController renderA uTouched
        (some (OptimizedController renderA uA none).cell)).node =
      (OptimizedController renderA uA none).node :=
  c4_unrelated_change_no_invoke renderA none uA uTouched (by decide) rfl

/-- Claim C5: across two consecutive render passes in which neither `value`
nor `disabled` changed, the produced output is referentially stable: the
second pass returns the very node cached in the memo cell, which it leaves
untouched, so the returned object is exactly the previous one. -/
theorem c5_referential_stability (render : RenderFn) (prev : Option MemoCell)
    (h1 h2 : UseControllerReturn)
    (hv : objectIs h1.field.value h2.field.value = true)
    (hd : h1.field.disabled = h2.field.disabled) :
    (OptimizedController render h2
        (some (OptimizedController render h1 prev).cell)).node =
      (OptimizedController render h1 prev).node ∧
    (OptimizedController render h2
        (some (OptimizedController render h1 prev).cell)).cell =
      (OptimizedController render h1 prev).cell := by
  rw [second_step_hit render prev h1 h2 hv hd,
    step_node_eq_result render h1 prev]
  exact ⟨rfl, rfl⟩

/-- Concrete instance of C5: an object-valued field mutated in place (same
heap reference 5, different contents) counts as unchanged, so the node and
memo cell survive the `uObj1` to `uObj2` update identically. -/
theorem c5_witness :
    (OptimizedController renderA uObj2
        (some (OptimizedController renderA uObj1 none).cell)).node =
      (OptimizedController renderA uObj1 none).node ∧
    (OptimizedController renderA uObj2
        (some (OptimizedController renderA uObj1 none).cell)).cell =
      (OptimizedController renderA uObj1 none).cell :=
  c5_referential_stability renderA none uObj1 uObj2 (by decide) rfl

/-- Claim C6: the dependency tuple includes the `render` function itself, so
even when `value` and `disabled` are both unchanged, a `render` prop with a
different identity than on the previous pass is re-invoked and a fresh node
produced; the suppression guarantees hold only when the `render` prop is
referentially stable. -/
theorem c6_render_identity_in_deps (r1 r2 : RenderFn)
    (prev : Option MemoCell) (h1 h2 : UseControllerReturn)
    (_hv : objectIs h1.field.value h2.field.value = true)
    (_hd : h1.field.disabled = h2.field.disabled)
    (hr : r2.id ≠ r1.id) :
    (OptimizedController r2 h2
        (some (OptimizedController r1 h1 prev).cell)).calls = [h2.field] ∧
    (OptimizedController r2 h2
        (some (OptimizedController r1 h1 prev).cell)).node =
      r2.fn h2.field := by
  obtain ⟨hid, _, _⟩ := step_cell_deps r1 h1 prev
  have hmiss : depsEq (OptimizedController r1 h1 prev).cell.deps
      (mkDeps r2 h2.field) = false := by
    cases hb : depsEq (OptimizedController r1 h1 prev).cell.deps
        (mkDeps r2 h2.field) with
    | false => rfl
    | true =>
      obtain ⟨_, _, hidd⟩ := depsEq_true_iff.mp hb
      simp only [mkDeps] at hidd
      exact absurd (hidd.symm.trans hid) hr
  rw [step_miss hmiss]
  exact ⟨rfl, rfl⟩

/-- Concrete instance of C6: with value and disabled unchanged, swapping the
render prop from `renderA` to `renderB` re-invokes render. -/
theorem c6_witness :
    (OptimizedController renderB uA
        (some (OptimizedController renderA uA none).cell)).calls =
      [uA.field] ∧
    (OptimizedController renderB uA
        (some (OptimizedController renderA uA none).cell)).node =
      renderB.fn uA.field :=
  c6_render_identity_in_deps renderA renderB none uA uA
    (by decide) rfl (by decide)

/-- Claim C7: every invocation of the `render` prop receives the field
object itself, which carries the change handler, the blur handler, the
current value, the disabled flag, the field name and the ref binding; and
when that field comes from the provider, its change handler forwards the new
value to the provider and its blur handler emits the touch notification. -/
theorem c7_minimal_view_contents (render : RenderFn)
    (hook : UseControllerReturn) (prev : Option MemoCell) (g : Field)
    (hg : g ∈ (OptimizedController render hook prev).calls) :
    (g.onChange = hook.field.onChange ∧ g.onBlur = hook.field.onBlur ∧
      g.value = hook.field.value ∧ g.disabled = hook.field.disabled ∧
      g.name = hook.field.name ∧ g.ref = hook.field.ref) ∧
    (∀ n v d r, hook.field = providerField n v d r →
      (∀ nv, g.onChange nv = [ProviderEvent.setValue n nv]) ∧
      g.onBlur () = [ProviderEvent.blurred n]) := by
  have hg' := mem_calls_eq render hook prev hg
  subst hg'
  refine ⟨⟨rfl, rfl, rfl, rfl, rfl, rfl⟩, ?_⟩
  rintro n v d r hf
  rw [hf]
  exact ⟨fun nv => rfl, rfl⟩

/-- Concrete instance of C7: the field passed on the first render of `uA`
carries the provider handlers for the field named `test`. -/
theorem c7_witness :
    uA.field.onChange (.prim (.str "x")) =
      [ProviderEvent.setValue "test" (.prim (.str "x"))] ∧
    uA.field.onBlur () = [ProviderEvent.blurred "test"] := by
  have h := (c7_minimal_view_contents renderA uA none uA.field
      (by rw [step_of_none]; exact List.mem_singleton.mpr rfl)).2
    "test" (.prim (.str "")) (some false) 7 rfl
  exact ⟨h.1 _, h.2⟩

/-- Claim C8: the change handler the `render` prop receives is the
provider's own `onChange`, passed through unwrapped; calling it forwards the
new value to the provider exactly once per call, with no adapter-introduced
side effects. -/
theorem c8_change_handler_passthrough (render : RenderFn)
    (hook : UseControllerReturn) (prev : Option MemoCell) (g : Field)
    (hg : g ∈ (OptimizedController render hook prev).calls) :
    g.onChange = hook.field.onChange ∧
    (∀ n v d r, hook.field = providerField n v d r →
      ∀ nv, g.onChange nv = [ProviderEvent.setValue n nv] ∧
        (g.onChange nv).length = 1) := by
  have hg' := mem_calls_eq render hook prev hg
  subst hg'
  refine ⟨rfl, ?_⟩
  rintro n v d r hf nv
  rw [hf]
  exact ⟨rfl, rfl⟩

/-- Concrete instance of C8: calling the exposed change handler with the
number 3 emits exactly the single provider call setting `test` to 3. -/
theorem c8_witness :
    uAbc.field.onChange (.prim (.num 3)) =
      [ProviderEvent.setValue "test" (.prim (.num 3))] ∧
    (uAbc.field.onChange (.prim (.num 3))).length = 1 :=
  (c8_change_handler_passthrough renderA uAbc none uAbc.field
      (by rw [step_of_none]; exact List.mem_singleton.mpr rfl)).2
    "test" (.prim (.str "abc")) (some false) 7 rfl (.prim (.num 3))

/-- Claim C9: the adapter reads only `field` from the hook result — two hook
results with the same `field` and arbitrarily different `fieldState` and
`formState` produce identical passes — and the `render` prop never receives
anything but that field object. -/
theorem c9_only_field_read :
    (∀ (render : RenderFn) (prev : Option MemoCell)
        (h1 h2 : UseControllerReturn), h1.field = h2.field →
        OptimizedController render h1 prev = OptimizedController render h2 prev) ∧
    (∀ (render : RenderFn) (prev : Option MemoCell)
        (hook : UseControllerReturn) (g : Field),
        g ∈ (OptimizedController render hook prev).calls → g = hook.field) := by
  constructor
  · intro render prev h1 h2 hf
    simp only [OptimizedController, hf]
  · exact fun render prev hook g => mem_calls_eq render hook prev

/-- Concrete instance of C9: `uA` and `uTouched` differ only in
`fieldState`, so their passes are identical. -/
theorem c9_witness :
    OptimizedController renderA uA none = OptimizedController renderA uTouched none :=
  c9_only_field_read.1 renderA none uA uTouched rfl

/-- Claim C10: the adapter owns no error conditions — when the provider's
binding call fails (missing context, invalid field name, provider-internal
validation failure) the failure is propagated unmodified, and when the
binding succeeds the pass is exactly `OptimizedController`, with no local
recovery or error-handling branch in between. -/
theorem c10_provider_failure_propagation (render : RenderFn)
    (hook : Except ProviderFailure UseControllerReturn)
    (prev : Option MemoCell) :
    (∀ e, hook = .error e →
      OptimizedControllerChecked render hook prev = .error e) ∧
    (∀ hr, hook = .ok hr →
      OptimizedControllerChecked render hook prev =
        .ok (OptimizedController render hr prev)) := by
  constructor
  · rintro e rfl; rfl
  · rintro hr rfl; rfl

/-- Concrete instance of C10: a missing-context failure from the provider
surfaces unmodified through the adapter. -/
theorem c10_witness :
    OptimizedControllerChecked renderA (.error .missingContext) none =
      .error .missingContext :=
  (c10_provider_failure_propagation renderA (.error .missingContext) none).1
    .missingContext rfl

end OptCtrl
